import Mathlib

/-!
Verification of the response-lifecycle tracking middleware and the
disconnect-scenario client of the sse-disconnect-repro repository.

The development shallowly embeds the relevant Python code:
- `ASGITrackingMiddleware.__call__` and its inner `tracking_send`
  (src/server.py, lines 27-65), and
- `quick_disconnect_test` (src/client.py, lines 21-73).

Async functions that only pass messages and log become pure functions from
explicit state to results; the `try`/`finally` block becomes a function that
always appends the completion report; a Python `dict` message is a structure
whose optional fields model present/absent keys; raising is `Except`.
-/

namespace SSERepro

/-- Severity of a record emitted through the Python `logging` module
(`logger.debug` / `logger.info` / `logger.error` in server.py and client.py). -/
inductive LogLevel where
  | debug
  | info
  | error
deriving DecidableEq, Repr

/-- One emitted log record: its severity and its message text. -/
structure LogRec where
  level : LogLevel
  text : String
deriving DecidableEq, Repr

/-- An ASGI message as seen by `tracking_send` in server.py: a Python dict of
which the middleware reads the `"type"` key (`message["type"]`, raising
`KeyError` when absent, hence an `Option`), the `"more_body"` key
(`message.get("more_body", False)`) and the `"body"` bytes value, of which
only the length is used (`len(message.get("body", b""))`; an absent key means
`b""`, length 0, so the length alone models both cases). -/
structure Message where
  type? : Option String
  moreBody? : Option Bool
  bodyLen : Nat
deriving DecidableEq, Repr

/-- The per-request nonlocal tracking variables of
`ASGITrackingMiddleware.__call__` (server.py lines 34-35), both initialised
to `False`. -/
structure TrackState where
  response_started : Bool
  body_sent : Bool
deriving DecidableEq, Repr

/-- The initial tracking state of a request: `response_started = False`,
`body_sent = False` (server.py lines 34-35). -/
def initState : TrackState := ⟨false, false⟩

/-- A Python exception raised by the embedded code. `tracking_send` can raise
`KeyError` from the subscript `message["type"]`. -/
inductive PyError where
  | keyError (key : String)
deriving DecidableEq, Repr

/-- Whether a message is an `http.response.start` message (the first branch
of `tracking_send`). A message without a `"type"` key matches no branch. -/
def isStartMsg (m : Message) : Bool := m.type? == some "http.response.start"

/-- Whether a message is an `http.response.body` message (the second branch
of `tracking_send`). -/
def isBodyMsg (m : Message) : Bool := m.type? == some "http.response.body"

/-- Result of one successful call to `tracking_send`: the updated nonlocal
state, the debug log records it emitted, and the messages it forwarded to the
wrapped `send` callable (in order). -/
structure SendResult where
  st : TrackState
  logs : List LogRec
  sent : List Message
deriving DecidableEq, Repr

/-- `tracking_send` from server.py (lines 38-53), embedded as a pure function.
`msg_type = message["type"]` raises `KeyError` when the key is absent, before
any state update, log, or forward happens.  Otherwise the branch on the type
updates the nonlocal state and logs a debug record, and then the message is
forwarded unmodified via `await send(message)` — modelled by the singleton
`sent` list. -/
def tracking_send (path : String) (st : TrackState) (message : Message) :
    Except PyError SendResult :=
  match message.type? with
  | none => .error (.keyError "type")
  | some msg_type =>
    if msg_type = "http.response.start" then
      .ok ⟨{ st with response_started := true },
           [⟨.debug, "[" ++ path ++ "] ASGI: http.response.start"⟩],
           [message]⟩
    else if msg_type = "http.response.body" then
      .ok ⟨{ st with body_sent := true },
           [⟨.debug, "[" ++ path ++ "] ASGI: http.response.body (bytes="
              ++ toString message.bodyLen ++ ", more_body="
              ++ toString (message.moreBody?.getD false) ++ ")"⟩],
           [message]⟩
    else
      .ok ⟨st, [], [message]⟩

/-- The state-update component of `tracking_send` for a message whose
`"type"` lookup succeeds, read off the same branch structure: a start message
sets `response_started`, a body message sets `body_sent`, any other type
leaves the state unchanged. -/
def observe (st : TrackState) (m : Message) : TrackState :=
  if isStartMsg m then { st with response_started := true }
  else if isBodyMsg m then { st with body_sent := true }
  else st

/-- The tracking state after a sequence of observed messages, starting from
the initial state. -/
def finalState (msgs : List Message) : TrackState := msgs.foldl observe initState

/-- The outcome classification implicit in the branch structure of the
`finally` block of `__call__` (server.py lines 57-65): the first branch
(`response_started and not body_sent`) is the protocol violation, the second
(`response_started and body_sent`) the clean completion, and the silent
remaining case (`not response_started`) the idle request. -/
inductive Classification where
  | Clean
  | Violation
  | Idle
deriving DecidableEq, Repr

/-- `classify`: the classification computed by the `finally` block of
`__call__` from the two nonlocal flags. -/
def classify (st : TrackState) : Classification :=
  if st.response_started && !st.body_sent then .Violation
  else if st.response_started && st.body_sent then .Clean
  else .Idle

/-- The log records emitted by the `finally` block of `__call__`
(server.py lines 57-65): one `logger.error` record in the violation case, one
`logger.debug` record in the clean case, and — note — no record at all in the
remaining (idle) case, which has no `else` branch in the code. -/
def completionReport (path : String) (st : TrackState) : List LogRec :=
  if st.response_started && !st.body_sent then
    [⟨.error, "[" ++ path ++ "] ASGI PROTOCOL VIOLATION: "
        ++ "http.response.start sent but no http.response.body message!"⟩]
  else if st.response_started && st.body_sent then
    [⟨.debug, "[" ++ path ++ "] ASGI protocol completed correctly"⟩]
  else []

/-- How the wrapped app invocation `await self.app(scope, receive,
tracking_send)` terminates: a normal return, a raised exception (identified
by its Python type name), or an `asyncio` cancellation. -/
inductive Outcome where
  | normal
  | exn (name : String)
  | cancelled
deriving DecidableEq, Repr

/-- Result of the wrapped app invocation: final tracking state, log records
emitted so far, messages forwarded to the transport, and the termination
signal. -/
structure InvocationResult where
  st : TrackState
  logs : List LogRec
  sent : List Message
  outcome : Outcome
deriving DecidableEq, Repr

/-- The wrapped app invocation: the handler emits `msgs` in order through
`tracking_send` and then terminates with signal `o`.  A `KeyError` raised by
`tracking_send` propagates out of the handler's `await send(...)` and aborts
the invocation there: later messages are not sent, and the invocation's
termination signal is that exception. -/
def appInvocation (path : String) (st : TrackState) (msgs : List Message)
    (o : Outcome) : InvocationResult :=
  match msgs with
  | [] => ⟨st, [], [], o⟩
  | m :: rest =>
    match tracking_send path st m with
    | .error _ => ⟨st, [], [], .exn "KeyError"⟩
    | .ok r =>
      let k := appInvocation path r.st rest o
      ⟨k.st, r.logs ++ k.logs, r.sent ++ k.sent, k.outcome⟩

/-- Result of one tracked HTTP request through the middleware: the
termination signal it re-raises (or the normal return it completes with),
all log records emitted, and all messages forwarded. -/
structure CallResult where
  outcome : Outcome
  logs : List LogRec
  sent : List Message
deriving DecidableEq, Repr

/-- The `http` branch of `ASGITrackingMiddleware.__call__` (server.py lines
55-65): run the wrapped app with `tracking_send` inside `try`, and in
`finally` emit the completion report.  The `finally` block neither raises nor
returns, so the invocation's original termination signal — normal return,
exception, or cancellation — propagates unchanged. -/
def middlewareCall (path : String) (msgs : List Message) (o : Outcome) :
    CallResult :=
  let inv := appInvocation path initState msgs o
  ⟨inv.outcome, inv.logs ++ completionReport path inv.st, inv.sent⟩

/-- The classification a full tracked run reports: the `finally` block
classifies the tracking state at the moment the wrapped invocation
terminated. -/
def runClassification (path : String) (msgs : List Message) (o : Outcome) :
    Classification :=
  classify (appInvocation path initState msgs o).st

/-- A message sequence is protocol-ordered when every `http.response.body`
message in it is preceded by an `http.response.start` message at a strictly
earlier position. -/
def protocolOrdered (msgs : List Message) : Prop :=
  ∀ i : Fin msgs.length, isBodyMsg (msgs.get i) = true →
    ∃ j : Fin msgs.length, j.val < i.val ∧ isStartMsg (msgs.get j) = true

instance (msgs : List Message) : Decidable (protocolOrdered msgs) := by
  unfold protocolOrdered
  infer_instance

/-- A minimal `http.response.start` message (status and headers are not read
by the middleware, so they are not modelled). -/
def startMsg : Message := ⟨some "http.response.start", none, 0⟩

/-- An `http.response.body` message with a 12-byte payload and
`more_body = False`. -/
def bodyMsg : Message := ⟨some "http.response.body", some false, 12⟩

/-- A message of a type the middleware does not track. -/
def trailersMsg : Message := ⟨some "http.response.trailers", none, 0⟩

/-- A malformed message dict with no `"type"` key. -/
def untypedMsg : Message := ⟨none, none, 0⟩

/-- Outcome of the httpx streaming block inside `quick_disconnect_test`
(client.py lines 49-64): the stream context either completes normally after
reading a response status, raises `httpx.ReadTimeout`, or raises some other
exception — caught by the `except Exception` clause, which reads its type
name and text. -/
inductive StreamOutcome where
  | ok (status : Nat)
  | readTimeout
  | exc (name : String) (msg : String)
deriving DecidableEq, Repr

/-- `quick_disconnect_test` from client.py (lines 21-73), embedded as a pure
function from the stream outcome to the log records it emits.  The
try/except structure of the source: a normal stream logs its info lines;
`httpx.ReadTimeout` is caught and logged at info level ("expected"); any
other exception is caught and logged at error level.  Every path falls
through to the trailing info logs; the total, non-`Except` return type
models that the run itself always completes normally whatever the stream
outcome. -/
def quick_disconnect_test (r : StreamOutcome) : List LogRec :=
  [⟨.info, "TEST: Quick disconnect before first event"⟩,
   ⟨.info, "Sending POST request with SSE Accept header..."⟩] ++
  (match r with
   | .ok status =>
      [⟨.info, "Response status: " ++ toString status⟩,
       ⟨.info, "Closing connection immediately without reading events..."⟩]
   | .readTimeout => [⟨.info, "Timeout occurred (expected)"⟩]
   | .exc n m => [⟨.error, "Error: " ++ n ++ ": " ++ m⟩]) ++
  [⟨.info, "Connection closed"⟩, ⟨.info, ""⟩]

lemma observe_response_started (st : TrackState) (m : Message) :
    (observe st m).response_started = (st.response_started || isStartMsg m) := by
  unfold observe
  cases h1 : isStartMsg m <;> cases h2 : isBodyMsg m <;> simp [h1, h2]

lemma isStartMsg_not_isBodyMsg (m : Message) (h1 : isStartMsg m = true) :
    isBodyMsg m = false := by
  unfold isStartMsg at h1
  unfold isBodyMsg
  have e1 : m.type? = some "http.response.start" := eq_of_beq h1
  rw [e1]
  decide

lemma observe_body_sent (st : TrackState) (m : Message) :
    (observe st m).body_sent = (st.body_sent || isBodyMsg m) := by
  unfold observe
  cases h1 : isStartMsg m <;> cases h2 : isBodyMsg m <;> simp [h1, h2]
  exact absurd (isStartMsg_not_isBodyMsg m h1) (by simp [h2])

lemma foldl_observe_response_started (msgs : List Message) :
    ∀ st : TrackState,
      (msgs.foldl observe st).response_started
        = (st.response_started || msgs.any isStartMsg) := by
  induction msgs with
  | nil => intro st; simp
  | cons m rest ih =>
    intro st
    simp [List.foldl_cons, List.any_cons, ih, observe_response_started,
      Bool.or_assoc]

lemma foldl_observe_body_sent (msgs : List Message) :
    ∀ st : TrackState,
      (msgs.foldl observe st).body_sent = (st.body_sent || msgs.any isBodyMsg) := by
  induction msgs with
  | nil => intro st; simp
  | cons m rest ih =>
    intro st
    simp [List.foldl_cons, List.any_cons, ih, observe_body_sent, Bool.or_assoc]

lemma tracking_send_ok (path : String) (st : TrackState) (m : Message)
    (t : String) (h : m.type? = some t) :
    ∃ logs, tracking_send path st m = .ok ⟨observe st m, logs, [m]⟩ := by
  obtain ⟨ty, mb, bl⟩ := m
  simp only at h
  subst h
  by_cases h1 : t = "http.response.start"
  · subst h1
    refine ⟨[⟨.debug, "[" ++ path ++ "] ASGI: http.response.start"⟩], ?_⟩
    simp [tracking_send, observe, isStartMsg, isBodyMsg]
  · by_cases h2 : t = "http.response.body"
    · subst h2
      refine ⟨[⟨.debug, "[" ++ path ++ "] ASGI: http.response.body (bytes="
          ++ toString bl ++ ", more_body=" ++ toString (mb.getD false) ++ ")"⟩], ?_⟩
      simp [tracking_send, observe, isStartMsg, isBodyMsg]
    · refine ⟨[], ?_⟩
      simp [tracking_send, observe, isStartMsg, isBodyMsg, h1, h2]

lemma appInvocation_typed (path : String) (msgs : List Message) :
    ∀ (st : TrackState) (o : Outcome),
      (∀ m ∈ msgs, (m.type?).isSome = true) →
      (appInvocation path st msgs o).st = msgs.foldl observe st ∧
      (appInvocation path st msgs o).sent = msgs ∧
      (appInvocation path st msgs o).outcome = o := by
  induction msgs with
  | nil => intro st o _; exact ⟨rfl, rfl, rfl⟩
  | cons m rest ih =>
    intro st o h
    have hm : (m.type?).isSome = true := h m (List.mem_cons_self m rest)
    obtain ⟨t, ht⟩ := Option.isSome_iff_exists.mp hm
    obtain ⟨logs, hts⟩ := tracking_send_ok path st m t ht
    have hrest : ∀ x ∈ rest, (x.type?).isSome = true :=
      fun x hx => h x (List.mem_cons_of_mem m hx)
    have ihr := ih (observe st m) o hrest
    simp only [appInvocation, hts]
    exact ⟨ihr.1, by simp [ihr.2.1], ihr.2.2⟩

lemma appInvocation_st_indep (path : String) (msgs : List Message) :
    ∀ (st : TrackState) (o₁ o₂ : Outcome),
      (appInvocation path st msgs o₁).st = (appInvocation path st msgs o₂).st := by
  induction msgs with
  | nil => intro st o₁ o₂; rfl
  | cons m rest ih =>
    intro st o₁ o₂
    simp only [appInvocation]
    cases hts : tracking_send path st m with
    | error e => rfl
    | ok r => simpa using ih r.st o₁ o₂

lemma classify_spec (st : TrackState) :
    (classify st = .Idle ↔ st.response_started = false) ∧
    (classify st = .Violation ↔
      (st.response_started = true ∧ st.body_sent = false)) ∧
    (classify st = .Clean ↔
      (st.response_started = true ∧ st.body_sent = true)) := by
  obtain ⟨rs, bs⟩ := st
  cases rs <;> cases bs <;> simp [classify]

/-- Claim C1: for every tracked HTTP request, the classification computed at
completion is exactly Idle when `response_started` is false, Violation when
`response_started` is true and `body_sent` is false, and Clean when both are
true, where `response_started` holds iff at least one `http.response.start`
message was observed and `body_sent` holds iff at least one
`http.response.body` message was observed. -/
theorem classification_matches_observed_flags (msgs : List Message) :
    ((finalState msgs).response_started = msgs.any isStartMsg) ∧
    ((finalState msgs).body_sent = msgs.any isBodyMsg) ∧
    (classify (finalState msgs) = .Idle ↔
      (finalState msgs).response_started = false) ∧
    (classify (finalState msgs) = .Violation ↔
      ((finalState msgs).response_started = true ∧
        (finalState msgs).body_sent = false)) ∧
    (classify (finalState msgs) = .Clean ↔
      ((finalState msgs).response_started = true ∧
        (finalState msgs).body_sent = true)) := by
  refine ⟨?_, ?_, (classify_spec _).1, (classify_spec _).2.1, (classify_spec _).2.2⟩
  · simpa [finalState, initState] using foldl_observe_response_started msgs initState
  · simpa [finalState, initState] using foldl_observe_body_sent msgs initState

lemma finalState_response_started (msgs : List Message) :
    (finalState msgs).response_started = msgs.any isStartMsg := by
  simpa [finalState, initState] using foldl_observe_response_started msgs initState

lemma finalState_body_sent (msgs : List Message) :
    (finalState msgs).body_sent = msgs.any isBodyMsg := by
  simpa [finalState, initState] using foldl_observe_body_sent msgs initState

lemma completionReport_classify (path : String) (st : TrackState) :
    (classify st = .Violation →
      ((completionReport path st).length = 1 ∧
        ∀ r ∈ completionReport path st, r.level = .error)) ∧
    (classify st = .Clean →
      ((completionReport path st).length = 1 ∧
        ∀ r ∈ completionReport path st, r.level = .debug)) ∧
    (classify st = .Idle → completionReport path st = []) := by
  obtain ⟨rs, bs⟩ := st
  cases rs <;> cases bs <;> simp [classify, completionReport]

/-- Claim C2: the classify-and-report step runs on every exit path of the
wrapped invocation — normal return, raised exception, or cancellation — and
the invocation's original termination signal is preserved unchanged by the
middleware: the result of the tracked call carries exactly the signal the
invocation terminated with, and its logs end with the completion report for
the final tracking state. -/
theorem report_runs_on_every_exit_path (path : String) (msgs : List Message)
    (o : Outcome) (h : ∀ m ∈ msgs, (m.type?).isSome = true) :
    (middlewareCall path msgs o).outcome = o ∧
    ∃ pre, (middlewareCall path msgs o).logs
        = pre ++ completionReport path (finalState msgs) := by
  obtain ⟨hst, hsent, hout⟩ := appInvocation_typed path msgs initState o h
  refine ⟨by simp [middlewareCall, hout], (appInvocation path initState msgs o).logs, ?_⟩
  simp [middlewareCall, hst, finalState]

/-- Witness for C2 at a concrete cancelled request carrying one start
message. -/
theorem report_runs_on_every_exit_path_witness :
    (middlewareCall "/mcp" [startMsg] .cancelled).outcome = .cancelled ∧
    ∃ pre, (middlewareCall "/mcp" [startMsg] .cancelled).logs
        = pre ++ completionReport "/mcp" (finalState [startMsg]) :=
  report_runs_on_every_exit_path "/mcp" [startMsg] .cancelled (by decide)

/-- Claim C3 counterexample: a handler that emits a single
`http.response.body` message with no preceding start produces a state with
`body_sent` true and `response_started` false, so the claimed invariant
fails right after that observation. -/
theorem body_before_start_breaks_invariant :
    ¬ ((finalState [bodyMsg]).body_sent = true →
        (finalState [bodyMsg]).response_started = true) := by
  decide

/-- Claim C3 (amended): provided the handler emits messages in protocol
order — every body message preceded by a start message — the state after
each observation (i.e. after every prefix of the sequence) satisfies
`body_sent = true` implies `response_started = true`. -/
theorem invariant_holds_under_protocol_order (msgs : List Message)
    (h : protocolOrdered msgs) (n : Nat)
    (hb : (finalState (msgs.take n)).body_sent = true) :
    (finalState (msgs.take n)).response_started = true := by
  rw [finalState_body_sent] at hb
  rw [finalState_response_started]
  obtain ⟨x, hx_mem, hx_body⟩ := List.any_eq_true.mp hb
  obtain ⟨i, hi_lt, hi_eq⟩ := List.mem_iff_getElem.mp hx_mem
  have hi_lt' : i < msgs.length := by
    rw [List.length_take] at hi_lt
    omega
  have htake_i : (msgs.take n)[i] = msgs.get ⟨i, hi_lt'⟩ := by
    rw [List.get_eq_getElem]
    exact List.getElem_take ..
  have hbody_i : isBodyMsg (msgs.get ⟨i, hi_lt'⟩) = true := by
    rw [← htake_i, hi_eq]
    exact hx_body
  obtain ⟨j, hj_lt, hj_start⟩ := h ⟨i, hi_lt'⟩ hbody_i
  have hj_lt' : j.val < i := hj_lt
  have hj_take : j.val < (msgs.take n).length := by
    rw [List.length_take] at hi_lt ⊢
    omega
  have htake_j : (msgs.take n)[j.val] = msgs.get j := by
    rw [List.get_eq_getElem]
    exact List.getElem_take ..
  refine List.any_eq_true.mpr ⟨(msgs.take n)[j.val], List.getElem_mem hj_take, ?_⟩
  rw [htake_j]
  exact hj_start

/-- Witness for C3 (amended): the protocol-ordered sequence of one start
followed by one body satisfies the invariant after both observations. -/
theorem invariant_holds_under_protocol_order_witness :
    (finalState ([startMsg, bodyMsg].take 2)).response_started = true :=
  invariant_holds_under_protocol_order [startMsg, bodyMsg] (by decide) 2 (by decide)

/-- Claim C4 counterexample: a request completing with no message observed
classifies as Idle, and the tracked call emits zero log records — not the
claimed one informational record per request. -/
theorem idle_request_emits_no_record :
    classify (finalState []) = .Idle ∧
    (middlewareCall "/mcp" [] .normal).logs.length = 0 := by
  decide

/-- Claim C4 (amended): per tracked request the completion step emits
exactly one error-severity record when the classification is Violation,
exactly one informational (debug) record when it is Clean, and no record at
all when it is Idle; the run's logs end with exactly that report. -/
theorem completion_records_per_classification (path : String)
    (msgs : List Message) (o : Outcome)
    (h : ∀ m ∈ msgs, (m.type?).isSome = true) :
    (middlewareCall path msgs o).logs
      = (appInvocation path initState msgs o).logs
        ++ completionReport path (finalState msgs) ∧
    (classify (finalState msgs) = .Violation →
      ((completionReport path (finalState msgs)).length = 1 ∧
        ∀ r ∈ completionReport path (finalState msgs), r.level = .error)) ∧
    (classify (finalState msgs) = .Clean →
      ((completionReport path (finalState msgs)).length = 1 ∧
        ∀ r ∈ completionReport path (finalState msgs), r.level = .debug)) ∧
    (classify (finalState msgs) = .Idle →
      completionReport path (finalState msgs) = []) := by
  obtain ⟨hst, hsent, hout⟩ := appInvocation_typed path msgs initState o h
  refine ⟨?_, completionReport_classify path (finalState msgs)⟩
  simp [middlewareCall, hst, finalState]

/-- Witness for C4 (amended) at a concrete violating request: one start, no
body, one error record. -/
theorem completion_records_per_classification_witness :
    (completionReport "/mcp" (finalState [startMsg])).length = 1 ∧
    ∀ r ∈ completionReport "/mcp" (finalState [startMsg]), r.level = .error :=
  (completion_records_per_classification "/mcp" [startMsg] .normal
    (by decide)).2.1 (by decide)

/-- Claim C5: the interceptor is a pure forwarder — each message whose type
lookup succeeds is forwarded exactly once and unmodified (the successful
result carries the updated state together with the singleton forward), and
a full tracked run forwards precisely the handler's message sequence, in
order, with nothing dropped, altered, or batched. -/
theorem forwards_every_message_unmodified (path : String) :
    (∀ (st : TrackState) (m : Message) (t : String), m.type? = some t →
      ∃ logs, tracking_send path st m = .ok ⟨observe st m, logs, [m]⟩) ∧
    (∀ (msgs : List Message) (o : Outcome),
      (∀ m ∈ msgs, (m.type?).isSome = true) →
      (middlewareCall path msgs o).sent = msgs) := by
  refine ⟨fun st m t ht => tracking_send_ok path st m t ht, fun msgs o h => ?_⟩
  have hsent := (appInvocation_typed path msgs initState o h).2.1
  simpa [middlewareCall] using hsent

/-- Witness for C5 at a concrete message and a concrete two-message run. -/
theorem forwards_every_message_unmodified_witness :
    (∃ logs, tracking_send "/mcp" initState startMsg
        = .ok ⟨observe initState startMsg, logs, [startMsg]⟩) ∧
    (middlewareCall "/mcp" [startMsg, bodyMsg] .normal).sent
        = [startMsg, bodyMsg] :=
  ⟨(forwards_every_message_unmodified "/mcp").1 initState startMsg
      "http.response.start" rfl,
   (forwards_every_message_unmodified "/mcp").2 [startMsg, bodyMsg] .normal
      (by decide)⟩

/-- Claim C6: classification is deterministic — the classification a tracked
run reports depends only on the message sequence observed before
termination, not on whether the invocation terminated normally, by error,
or by cancellation (the embedding has no time parameter, so wall-clock
independence holds by construction). -/
theorem classification_deterministic (path : String) (msgs : List Message)
    (o₁ o₂ : Outcome) :
    runClassification path msgs o₁ = runClassification path msgs o₂ := by
  unfold runClassification
  rw [appInvocation_st_indep path msgs initState o₁ o₂]

/-- Claim C7 counterexample: the code's tracking state consists only of the
booleans `response_started` and `body_sent`; at the concrete state reached
after a body message, observing `bodyMsg` again leaves the state unchanged,
so no natural-number-valued field of the state can be incremented by every
observation (it would satisfy `c = c + 1`). -/
theorem no_message_count_field :
    ¬ ∃ count : TrackState → Nat,
        ∀ (st : TrackState) (m : Message) (t : String), m.type? = some t →
          count (observe st m) = count st + 1 := by
  rintro ⟨count, hcount⟩
  have h := hcount ⟨false, true⟩ bodyMsg "http.response.body" rfl
  have e : observe ⟨false, true⟩ bodyMsg = ⟨false, true⟩ := by decide
  rw [e] at h
  omega

/-- Claim C7 (amended): observing a Start message sets `response_started` to
true, and observing a Body message sets `body_sent` to true for every value
of `more_body`; the state has no message counter (see the counterexample),
so no count is incremented. -/
theorem observe_updates_flags (st : TrackState) (m : Message) :
    (isStartMsg m = true →
      observe st m = { st with response_started := true }) ∧
    (isBodyMsg m = true → observe st m = { st with body_sent := true }) := by
  constructor
  · intro h
    simp [observe, h]
  · intro h
    have h1 : isStartMsg m = false := by
      cases h1 : isStartMsg m
      · rfl
      · exact absurd (isStartMsg_not_isBodyMsg m h1) (by simp [h])
    simp [observe, h, h1]

/-- Witness for C7 (amended) at the concrete start and body messages. -/
theorem observe_updates_flags_witness :
    observe initState startMsg = { initState with response_started := true } ∧
    observe initState bodyMsg = { initState with body_sent := true } :=
  ⟨(observe_updates_flags initState startMsg).1 (by decide),
   (observe_updates_flags initState bodyMsg).2 (by decide)⟩

/-- Claim C8: the immediate-disconnect runner treats a client-side read
timeout as an expected outcome: the run completes normally for every stream
outcome (the embedding is a total function), an error-severity record
appears iff the stream raised an exception other than the timeout, and on a
timeout the runner logs the informational "Timeout occurred (expected)"
record and nothing but info-level records. -/
theorem timeout_is_expected_outcome (r : StreamOutcome) :
    ((quick_disconnect_test r).any (fun lr => lr.level == .error) = true
      ↔ ∃ n m, r = .exc n m) ∧
    (r = .readTimeout →
      ((⟨.info, "Timeout occurred (expected)"⟩ : LogRec)
          ∈ quick_disconnect_test r ∧
        (quick_disconnect_test r).all (fun lr => lr.level == .info) = true)) := by
  constructor
  · cases r with
    | ok s => simp [quick_disconnect_test]
    | readTimeout => simp [quick_disconnect_test]
    | exc n m => simp [quick_disconnect_test]
  · rintro rfl
    exact ⟨by decide, by decide⟩

/-- Witness for C8 at the timeout outcome and at a concrete other
exception. -/
theorem timeout_is_expected_outcome_witness :
    ((⟨.info, "Timeout occurred (expected)"⟩ : LogRec)
        ∈ quick_disconnect_test .readTimeout ∧
      (quick_disconnect_test .readTimeout).all
        (fun lr => lr.level == .info) = true) ∧
    ((quick_disconnect_test (.exc "ConnectError" "refused")).any
        (fun lr => lr.level == .error) = true) :=
  ⟨(timeout_is_expected_outcome .readTimeout).2 rfl,
   ((timeout_is_expected_outcome (.exc "ConnectError" "refused")).1).mpr
      ⟨"ConnectError", "refused", rfl⟩⟩

/-- Claim C9: a message whose type is neither `http.response.start` nor
`http.response.body` (for example `http.response.trailers`) leaves both
tracking flags unchanged, emits no log record, and is still forwarded to
the transport. -/
theorem other_types_leave_state_unchanged (path : String) (st : TrackState)
    (m : Message) (t : String) (h : m.type? = some t)
    (h1 : t ≠ "http.response.start") (h2 : t ≠ "http.response.body") :
    tracking_send path st m = .ok ⟨st, [], [m]⟩ := by
  obtain ⟨ty, mb, bl⟩ := m
  simp only at h
  subst h
  simp [tracking_send, h1, h2]

/-- Witness for C9 at a concrete trailers message. -/
theorem other_types_leave_state_unchanged_witness :
    tracking_send "/mcp" initState trailersMsg
      = .ok ⟨initState, [], [trailersMsg]⟩ :=
  other_types_leave_state_unchanged "/mcp" initState trailersMsg
    "http.response.trailers" rfl (by decide) (by decide)

/-- Claim C10: `tracking_send` is partial at its interface — on any message
dict lacking a `"type"` key it raises `KeyError` before forwarding anything:
the result is the raised exception, carrying no forwarded message. -/
theorem missing_type_key_raises (path : String) (st : TrackState)
    (m : Message) (h : m.type? = none) :
    tracking_send path st m = .error (.keyError "type") := by
  obtain ⟨ty, mb, bl⟩ := m
  simp only at h
  subst h
  rfl

/-- Witness for C10 at a concrete untyped message. -/
theorem missing_type_key_raises_witness :
    tracking_send "/mcp" initState untypedMsg = .error (.keyError "type") :=
  missing_type_key_raises "/mcp" initState untypedMsg rfl

end SSERepro
